import Mathlib

/-!
Verification of the Drive file-system orchestration layer
(chrome/browser/chromeos/drive/drive_file_system.cc) against its
natural-language specification.

The C++ code is continuation-passing over asynchronous collaborators
(DriveCache, DriveScheduler, DriveResourceMetadata).  We embed each
callback chain as a total Lean function from the responses of those
collaborators (gathered in an environment structure) to the final result
delivered to the user callback, together with the ordered list of
collaborator calls (effects) the chain issues on the way.
-/

namespace Drive

/-- Error kinds of the drive file system (DriveFileError in the source). -/
inductive DriveFileError where
  | ok
  | failed
  | notFound
  | fileExists
  | notADirectory
  | inUse
  | invalidOperation
  | accessDenied
  | noSpace
  | cancelled
deriving DecidableEq, Repr

/-- File kind returned by the get-file pipeline (DriveFileType in the source). -/
inductive DriveFileType where
  | regularFile
  | hostedDocument
deriving DecidableEq, Repr

/-- Modelled from the spec: result codes of the remote transport
(google_apis::GDataErrorCode).  Only the distinctions that the
orchestration code in drive_file_system.cc inspects are kept: HTTP
success, explicit cancellation, and every other failing code. -/
inductive GDataErrorCode where
  | httpSuccess
  | gdataCancelled
  | gdataOtherError
deriving DecidableEq, Repr

/-- Modelled from the spec: util::GDataToDriveFileError (the helper lives
outside this source slice).  Per the error-handling design, each remote
status maps to one error kind: success maps to ok, cancellation maps to
cancelled, and any other failing status to a non-ok kind (represented
here by the generic failed). -/
def gdataToDriveFileError : GDataErrorCode → DriveFileError
  | .httpSuccess => .ok
  | .gdataCancelled => .cancelled
  | .gdataOtherError => .failed

/-- File-info part of an entry (PlatformFileInfoProto in drive.pb).
Holds the size and timestamps plus the directory flag. -/
structure PlatformFileInfoProto where
  size : Int
  is_directory : Bool
  last_modified : Int
  last_accessed : Int
  creation_time : Int
deriving DecidableEq, Repr

/-- File-specific part of an entry (DriveFileSpecificInfo in drive.pb). -/
structure DriveFileSpecificInfo where
  is_hosted_document : Bool
  file_md5 : String
  content_mime_type : String
  alternate_url : String
deriving DecidableEq, Repr

/-- Protobuf default instance of DriveFileSpecificInfo: all fields unset. -/
def defaultFileSpecificInfo : DriveFileSpecificInfo :=
  { is_hosted_document := false
    file_md5 := ""
    content_mime_type := ""
    alternate_url := "" }

/-- An entry of the metadata tree (DriveEntryProto in drive.pb).  The
file_specific_info submessage is optional; the source tests its presence
with has_file_specific_info. -/
structure DriveEntryProto where
  resource_id : String
  file_info : PlatformFileInfoProto
  file_specific_info : Option DriveFileSpecificInfo
deriving DecidableEq, Repr

/-- Presence test for the optional submessage (has_file_specific_info). -/
def DriveEntryProto.has_file_specific_info (e : DriveEntryProto) : Bool :=
  e.file_specific_info.isSome

/-- Accessor matching protobuf semantics: reading an absent submessage
yields the default instance. -/
def DriveEntryProto.fsi (e : DriveEntryProto) : DriveFileSpecificInfo :=
  e.file_specific_info.getD defaultFileSpecificInfo

/-- A cache record as reported by DriveCache::GetCacheEntry
(DriveCacheEntry in the source). -/
structure DriveCacheEntry where
  is_present : Bool
  is_dirty : Bool
  is_pinned : Bool
deriving DecidableEq, Repr

/-- Fresh entry metadata fetched from the server
(google_apis::ResourceEntry); only the fields the pipeline reads. -/
structure ResourceEntry where
  resource_id : String
  download_url : String
deriving DecidableEq, Repr

/-- Mime type of the stub file staged for hosted documents
(kMimeTypeJson). -/
def kMimeTypeJson : String := "application/json"

/-- Source path used to create a brand-new empty file (kEmptyFilePath). -/
def kEmptyFilePath : String := "/dev/null"

/-- Polling interval when no push notification channel is active
(kFastPollingIntervalInSec). -/
def kFastPollingIntervalInSec : Nat := 60

/-- Polling interval when push notifications are available
(kSlowPollingIntervalInSec). -/
def kSlowPollingIntervalInSec : Nat := 300

/-- Content of the stub JSON file staged for a hosted document, as
assembled by CreateDocumentJsonFileOnBlockingPool:
a JSON object embedding the edit url and the resource id. -/
def createDocumentJsonContent (edit_url resource_id : String) : String :=
  "\x7b\"url\": \"" ++ edit_url ++ "\", \"resource_id\": \"" ++
    resource_id ++ "\"\x7d"

/-- One call issued to a collaborator during a callback chain. -/
inductive Effect where
  | stageDocumentJson (dir content : String)
  | cacheGetFile (resource_id md5 : String)
  | cacheGetCacheEntry (resource_id md5 : String)
  | cacheStore (resource_id md5 src : String)
  | cacheMarkDirty (resource_id md5 : String)
  | cacheCommitDirty (resource_id md5 : String)
  | cacheUnpin (resource_id md5 : String)
  | cacheFreeDiskSpace (size : Int)
  | remoteGetResourceEntry (resource_id : String)
  | remoteDownloadFile (drive_path : String)
  | metadataRefreshEntry (resource_id : String)
  | createTemporaryFile (dir : String)
  | deleteFile (path : String)
  | notifyDirectoryChanged (path : String)
deriving DecidableEq, Repr

/-- True for the ContentCache dirty/pin-state operations (MarkDirty,
CommitDirty, Unpin). -/
def Effect.isDirtyOrPinOp : Effect → Bool
  | .cacheMarkDirty _ _ => true
  | .cacheCommitDirty _ _ => true
  | .cacheUnpin _ _ => true
  | _ => false

/-- True for the calls that contact the RemoteStore (metadata fetch and
content download, both issued through the scheduler). -/
def Effect.isRemoteStoreCall : Effect → Bool
  | .remoteGetResourceEntry _ => true
  | .remoteDownloadFile _ => true
  | _ => false

/-- Outcome of the CreateFile pre-check
(DriveFileSystem::OnGetEntryInfoForCreateFile): either the user callback
is run directly with an error code, or the request is delegated to
TransferRegularFile, which uploads an empty file via the RemoteStore. -/
inductive CreateFileOutcome where
  | callbackRun (error : DriveFileError)
  | transferRegularFile (src : String)
deriving DecidableEq, Repr

/-- True when the outcome contacts the RemoteStore: only the delegation
to TransferRegularFile does. -/
def CreateFileOutcome.contactsRemoteStore : CreateFileOutcome → Bool
  | .callbackRun _ => false
  | .transferRegularFile _ => true

/-- DriveFileSystem::OnGetEntryInfoForCreateFile: the pre-check run after
looking up the target path in the metadata.  result and entry are the
response of GetEntryInfoByPath.  The none branch under result = ok is
unreachable (the source asserts the entry is present there). -/
def onGetEntryInfoForCreateFile (is_exclusive : Bool)
    (result : DriveFileError) (entry : Option DriveEntryProto) :
    CreateFileOutcome :=
  if result ≠ .notFound ∧ result ≠ .ok then
    .callbackRun result
  else if result = .ok then
    match entry with
    | some e =>
        if is_exclusive || e.file_info.is_directory ||
            e.fsi.is_hosted_document then
          .callbackRun .fileExists
        else
          .callbackRun .ok
    | none => .callbackRun .failed
  else
    .transferRegularFile kEmptyFilePath

/-- Parent directory of a path (base::FilePath::DirName): the path with
its last component removed. -/
def dirName (p : String) : String :=
  let parts := p.splitOn "/"
  if parts.length ≤ 1 then "." else String.intercalate "/" parts.dropLast

/-- Responses of the collaborators queried by the get-file pipeline.
Each field is the answer the corresponding asynchronous call would
deliver to its continuation. -/
structure PipelineEnv where
  /-- Directory for staged hosted-document stubs
  (cache GetCacheDirectoryPath CACHE_TYPE_TMP_DOCUMENTS). -/
  tmpDocumentsDir : String
  /-- Directory for temporary downloads
  (cache GetCacheDirectoryPath CACHE_TYPE_TMP_DOWNLOADS). -/
  tmpDownloadsDir : String
  /-- Result of CreateDocumentJsonFileOnBlockingPool: error and the
  staged stub path. -/
  createDocJson : DriveFileError × String
  /-- Response of the initial DriveCache::GetFile lookup. -/
  cacheGetFile : DriveFileError × String
  /-- Response of DriveScheduler::GetResourceEntry: remote status and the
  fresh server-side entry. -/
  resourceEntry : GDataErrorCode × Option ResourceEntry
  /-- Response of DriveResourceMetadata::RefreshEntry: error and the
  refreshed local entry. -/
  refreshEntry : DriveFileError × Option DriveEntryProto
  /-- Response of DriveCache::FreeDiskSpaceIfNeededFor. -/
  freeDiskSpace : Bool
  /-- Response of file_util::CreateTemporaryFileInDir: success flag and
  the created path. -/
  createTempFile : Bool × String
  /-- Response of DriveScheduler::DownloadFile: remote status and the
  downloaded file path. -/
  download : GDataErrorCode × String
  /-- Response of DriveCache::GetCacheEntry on the cancellation path. -/
  cacheEntryLookup : Bool × DriveCacheEntry
  /-- Response of DriveCache::Store. -/
  store : DriveFileError
  /-- Response of the second DriveCache::GetFile, after a successful
  store. -/
  cacheGetFileAfterStore : DriveFileError × String
deriving Repr

/-- Result delivered by the get-file pipeline to the GetFileCallback,
plus the ordered collaborator calls the pipeline issued. -/
structure ResolvedFileResult where
  error : DriveFileError
  localPath : String
  mimeType : String
  fileType : DriveFileType
  effects : List Effect
deriving DecidableEq, Repr

/-- DriveFileSystem::GetResolvedFileByPath and its continuation chain
(AfterCreateDocumentJsonFile, AfterGetFileFromCache,
AfterGetResourceEntry, AfterRefreshEntry, AfterFreeDiskSpace,
AfterCreateTemporaryFile, AfterDownloadFile,
AfterGetCacheEntryForCancel, AfterStore, AfterGetFile), flattened into
one function of the collaborator responses.  GetResolvedFileParams
OnError always reports an empty path, an empty mime type and
REGULAR_FILE. -/
def getResolvedFileByPath (entry : DriveEntryProto) (env : PipelineEnv)
    (drive_file_path : String) : ResolvedFileResult :=
  if ¬ entry.has_file_specific_info then
    ⟨.notFound, "", "", .regularFile, []⟩
  else if entry.fsi.is_hosted_document then
    -- Hosted document: stage a stub JSON file holding the edit url and
    -- the resource id; on success OnCacheFound reports it with the fixed
    -- JSON mime type and HOSTED_DOCUMENT kind.
    let content :=
      createDocumentJsonContent entry.fsi.alternate_url entry.resource_id
    let effs := [Effect.stageDocumentJson env.tmpDocumentsDir content]
    if env.createDocJson.1 ≠ .ok then
      ⟨env.createDocJson.1, "", "", .regularFile, effs⟩
    else
      ⟨.ok, env.createDocJson.2, kMimeTypeJson, .hostedDocument, effs⟩
  else
    let rid := entry.resource_id
    let md5 := entry.fsi.file_md5
    let effs0 := [Effect.cacheGetFile rid md5]
    if env.cacheGetFile.1 = .ok then
      -- Cache hit: OnCacheFound on a non-hosted entry reports the cached
      -- path with the entry content mime type and REGULAR_FILE kind.
      ⟨.ok, env.cacheGetFile.2, entry.fsi.content_mime_type, .regularFile,
        effs0⟩
    else
      -- Cache miss: fetch fresh metadata from the server.
      let effs1 := effs0 ++ [Effect.remoteGetResourceEntry rid]
      if gdataToDriveFileError env.resourceEntry.1 ≠ .ok then
        ⟨gdataToDriveFileError env.resourceEntry.1, "", "", .regularFile,
          effs1⟩
      else
        match env.resourceEntry.2 with
        | none => ⟨.failed, "", "", .regularFile, effs1⟩
        | some rentry =>
          if rentry.download_url = "" then
            ⟨.accessDenied, "", "", .regularFile, effs1⟩
          else
            let effs2 := effs1 ++ [Effect.metadataRefreshEntry rid]
            if env.refreshEntry.1 ≠ .ok then
              ⟨env.refreshEntry.1, "", "", .regularFile, effs2⟩
            else
              match env.refreshEntry.2 with
              | none => ⟨.failed, "", "", .regularFile, effs2⟩
              | some fresh =>
                -- The refreshed entry replaces the one in the params;
                -- every later step reads the fresh entry.
                let effs3 :=
                  effs2 ++ [Effect.cacheFreeDiskSpace fresh.file_info.size]
                if ¬ env.freeDiskSpace then
                  ⟨.noSpace, "", "", .regularFile, effs3⟩
                else
                  let effs4 :=
                    effs3 ++ [Effect.createTemporaryFile env.tmpDownloadsDir]
                  if ¬ env.createTempFile.1 then
                    ⟨.failed, "", "", .regularFile, effs4⟩
                  else
                    let effs5 :=
                      effs4 ++ [Effect.remoteDownloadFile drive_file_path]
                    let frid := fresh.resource_id
                    let fmd5 := fresh.fsi.file_md5
                    let dpath := env.download.2
                    -- On cancellation, look up the cache record and unpin
                    -- it when it exists and is pinned.
                    let effs6 :=
                      if env.download.1 = .gdataCancelled then
                        let effsC :=
                          effs5 ++ [Effect.cacheGetCacheEntry frid fmd5]
                        if env.cacheEntryLookup.1 &&
                            env.cacheEntryLookup.2.is_pinned then
                          effsC ++ [Effect.cacheUnpin frid fmd5]
                        else effsC
                      else effs5
                    if gdataToDriveFileError env.download.1 ≠ .ok then
                      ⟨gdataToDriveFileError env.download.1, "", "",
                        .regularFile, effs6⟩
                    else
                      let effs7 :=
                        effs6 ++ [Effect.cacheStore frid fmd5 dpath]
                      if env.store ≠ .ok then
                        -- Failed store: delete the orphaned downloaded
                        -- bytes, then report the store error.
                        ⟨env.store, "", "", .regularFile,
                          effs7 ++ [Effect.deleteFile dpath]⟩
                      else
                        let effs8 := effs7 ++
                          [Effect.notifyDirectoryChanged
                            (dirName drive_file_path),
                           Effect.cacheGetFile frid fmd5]
                        if env.cacheGetFileAfterStore.1 ≠ .ok then
                          ⟨env.cacheGetFileAfterStore.1, "", "",
                            .regularFile, effs8⟩
                        else
                          ⟨.ok, env.cacheGetFileAfterStore.2,
                            fresh.fsi.content_mime_type, .regularFile,
                            effs8⟩

/-- Collaborator responses consumed by an OpenFile call. -/
structure OpenFileEnv where
  /-- Response of GetEntryInfoByPath on the opened path. -/
  entryLookup : DriveFileError × Option DriveEntryProto
  /-- Responses for the inner get-file pipeline. -/
  pipeline : PipelineEnv
  /-- Response of DriveCache::MarkDirty. -/
  markDirty : DriveFileError
  /-- Response of the final DriveCache::GetFile. -/
  cacheGetFile : DriveFileError × String
deriving Repr

/-- Result of an OpenFile call: the open-file set as it stands when the
user callback runs, the error and local path passed to the callback, and
the collaborator calls issued. -/
structure OpenFileResult where
  open_files : Finset String
  error : DriveFileError
  localPath : String
  effects : List Effect
deriving DecidableEq

/-- Error adjustment of OnGetEntryInfoCompleteForOpenFile: an entry
without file-specific info becomes NOT_FOUND, and an otherwise fine
entry with an empty md5 or the hosted-document flag becomes
INVALID_OPERATION (no support for opening a directory or hosted
document).  The source asserts the entry is present whenever the lookup
error is ok. -/
def openFileError (error : DriveFileError)
    (entry : Option DriveEntryProto) : DriveFileError :=
  match entry with
  | none => error
  | some e =>
      let error2 :=
        if ¬ e.has_file_specific_info then DriveFileError.notFound else error
      if error2 = .ok then
        if e.fsi.file_md5 = "" || e.fsi.is_hosted_document then
          .invalidOperation
        else .ok
      else error2

/-- DriveFileSystem::OnOpenFileFinished: every completion of an OpenFile
call goes through here; when the result is not ok the path is removed
from the open-file set before the user callback runs. -/
def finishOpen (open_files : Finset String) (path : String)
    (result : DriveFileError) (localPath : String) (effs : List Effect) :
    OpenFileResult :=
  ⟨if result ≠ .ok then open_files.erase path else open_files,
    result, localPath, effs⟩

/-- Body of an OpenFile call after the exclusivity check and the set
insertion: the continuation chain OnGetEntryInfoCompleteForOpenFile,
OnGetFileCompleteForOpenFile and OnMarkDirtyInCacheCompleteForOpenFile,
returning the error, the local path and the collaborator calls that it
hands to OnOpenFileFinished.  The entry is resolved and materialized
through the get-file pipeline, the cache record of the original entry is
marked dirty, and the cache file path is fetched.  The none branch under
an ok adjusted error is unreachable (the source asserts the entry is
present there). -/
def openFileOutcome (path : String) (env : OpenFileEnv) :
    DriveFileError × String × List Effect :=
  let err := openFileError env.entryLookup.1 env.entryLookup.2
  if err = .ok then
    match env.entryLookup.2 with
    | none => (.failed, "", [])
    | some e =>
        let r := getResolvedFileByPath e env.pipeline path
        if r.error = .ok then
          let effs :=
            r.effects ++
              [Effect.cacheMarkDirty e.resource_id e.fsi.file_md5]
          if env.markDirty = .ok then
            (env.cacheGetFile.1, env.cacheGetFile.2,
              effs ++ [Effect.cacheGetFile e.resource_id e.fsi.file_md5])
          else
            (env.markDirty, "", effs)
        else
          (r.error, "", r.effects)
  else
    (err, "", [])

/-- DriveFileSystem::OpenFile: a path already in the open-file set is
rejected with IN_USE before anything else happens; otherwise the path is
inserted into the set up front and every completion of the body runs
through OnOpenFileFinished (finishOpen). -/
def openFile (open_files : Finset String) (path : String)
    (env : OpenFileEnv) : OpenFileResult :=
  if path ∈ open_files then
    ⟨open_files, .inUse, "", []⟩
  else
    let o := openFileOutcome path env
    finishOpen (insert path open_files) path o.1 o.2.1 o.2.2

/-- Collaborator responses consumed by a CloseFile call. -/
structure CloseFileEnv where
  /-- Response of GetEntryInfoByPath on the closed path. -/
  entryLookup : DriveFileError × Option DriveEntryProto
  /-- Response of DriveCache::CommitDirty. -/
  commitDirty : DriveFileError
deriving Repr

/-- Result of a CloseFile call. -/
structure CloseFileResult where
  open_files : Finset String
  error : DriveFileError
  effects : List Effect
deriving DecidableEq

/-- DriveFileSystem::CloseFile with its continuation chain
(CloseFileAfterGetEntryInfo, CloseFileFinalize).  A path not in the
open-file set is rejected with NOT_FOUND and nothing else happens.
Otherwise every completion, the entry-lookup failures included, runs
through CloseFileFinalize, which removes the path from the set before
the user callback runs.  On a successful lookup the dirty cache record
is committed and the commit result is reported.  The none branch under
an ok error is unreachable (the source dereferences the entry there). -/
def closeFile (open_files : Finset String) (path : String)
    (env : CloseFileEnv) : CloseFileResult :=
  if path ∉ open_files then
    ⟨open_files, .notFound, []⟩
  else
    let err0 := env.entryLookup.1
    let err1 :=
      match env.entryLookup.2 with
      | some e =>
          if ¬ e.has_file_specific_info then DriveFileError.notFound else err0
      | none => err0
    if err1 ≠ .ok then
      ⟨open_files.erase path, err1, []⟩
    else
      match env.entryLookup.2 with
      | some e =>
          ⟨open_files.erase path, env.commitDirty,
            [Effect.cacheCommitDirty e.resource_id e.fsi.file_md5]⟩
      | none => ⟨open_files.erase path, .failed, []⟩

/-- Collaborator responses consumed by CheckLocalModificationAndRun. -/
structure LocalModificationEnv where
  /-- Response of DriveCache::GetCacheEntry. -/
  cacheEntry : Bool × DriveCacheEntry
  /-- Response of DriveCache::GetFile. -/
  cacheFile : DriveFileError × String
  /-- Response of file_util::GetFileInfo on the cache file path. -/
  fileInfo : Bool × PlatformFileInfoProto
deriving Repr

/-- DriveFileSystem::CheckLocalModificationAndRun with its continuation
chain (AfterGetCacheEntry, AfterGetCacheFile, AfterGetFileInfo).
Entries that will never be cached (no file-specific info, or hosted
documents) are returned as is; so are entries whose cache record is
absent or not dirty, and entries whose dirty cache file cannot be
retrieved.  For a dirty cache entry whose file-info probe succeeds, the
file_info of the returned entry is replaced by the probed info of the
local cache file; a failing probe reports NOT_FOUND with no entry. -/
def checkLocalModificationAndRun (entry : DriveEntryProto)
    (env : LocalModificationEnv) :
    DriveFileError × Option DriveEntryProto :=
  if !entry.has_file_specific_info || entry.fsi.is_hosted_document then
    (.ok, some entry)
  else if !env.cacheEntry.1 || !env.cacheEntry.2.is_dirty then
    (.ok, some entry)
  else if env.cacheFile.1 ≠ .ok then
    (.ok, some entry)
  else if ¬ env.fileInfo.1 then
    (.notFound, none)
  else
    (.ok, some { entry with file_info := env.fileInfo.2 })

/-- The members of DriveFileSystem that drive update polling:
the push-notification flag, the chosen polling interval, and the state
of the repeating update timer.  timer_interval_sec is the interval the
running base timer was started with; base timers keep firing at that
interval until stopped and restarted. -/
structure PollingState where
  push_notification_enabled : Bool
  polling_interval_sec : Nat
  timer_running : Bool
  timer_interval_sec : Nat
deriving DecidableEq, Repr

/-- Constructor state: polling starts disabled on the fast interval. -/
def initialPollingState : PollingState :=
  { push_notification_enabled := false
    polling_interval_sec := kFastPollingIntervalInSec
    timer_running := false
    timer_interval_sec := 0 }

/-- DriveFileSystem::SetPushNotificationEnabled: records the flag and
selects the slow interval when enabled, the fast one otherwise.  It does
not touch the update timer. -/
def setPushNotificationEnabled (st : PollingState) (enabled : Bool) :
    PollingState :=
  { st with
    push_notification_enabled := enabled
    polling_interval_sec :=
      if enabled then kSlowPollingIntervalInSec
      else kFastPollingIntervalInSec }

/-- DriveFileSystem::StartPolling: starts the repeating update timer at
the currently selected interval. -/
def startPolling (st : PollingState) : PollingState :=
  { st with
    timer_running := true
    timer_interval_sec := st.polling_interval_sec }

/-- DriveFileSystem::StopPolling: stops the update timer when it runs. -/
def stopPolling (st : PollingState) : PollingState :=
  { st with timer_running := false }

/-- Sample regular-file entry used to instantiate theorems. -/
def sampleFileEntry : DriveEntryProto :=
  { resource_id := "file:1"
    file_info :=
      { size := 12, is_directory := false, last_modified := 50
        last_accessed := 60, creation_time := 10 }
    file_specific_info := some
      { is_hosted_document := false, file_md5 := "md5a"
        content_mime_type := "text/plain", alternate_url := "" } }

/-- Sample directory entry used to instantiate theorems. -/
def sampleDirEntry : DriveEntryProto :=
  { resource_id := "folder:2"
    file_info :=
      { size := 0, is_directory := true, last_modified := 50
        last_accessed := 60, creation_time := 10 }
    file_specific_info := none }

/-- Sample hosted-document entry used to instantiate theorems. -/
def sampleHostedEntry : DriveEntryProto :=
  { resource_id := "document:3"
    file_info :=
      { size := 0, is_directory := false, last_modified := 50
        last_accessed := 60, creation_time := 10 }
    file_specific_info := some
      { is_hosted_document := true, file_md5 := ""
        content_mime_type := "application/vnd.document"
        alternate_url := "https://docs.example.com/edit/3" } }

/-- Sample fresh server-side entry used to instantiate theorems. -/
def sampleResourceEntry : ResourceEntry :=
  { resource_id := "file:1", download_url := "https://dl.example.com/1" }

/-- Baseline collaborator responses for the get-file pipeline: every
call succeeds. -/
def basePipelineEnv : PipelineEnv :=
  { tmpDocumentsDir := "/cache/tmp/documents"
    tmpDownloadsDir := "/cache/tmp/downloads"
    createDocJson := (.ok, "/cache/tmp/documents/stub.json")
    cacheGetFile := (.ok, "/cache/persistent/file1")
    resourceEntry := (.httpSuccess, some sampleResourceEntry)
    refreshEntry := (.ok, some sampleFileEntry)
    freeDiskSpace := true
    createTempFile := (true, "/cache/tmp/downloads/tmp1")
    download := (.httpSuccess, "/cache/tmp/downloads/tmp1")
    cacheEntryLookup := (true, ⟨false, false, false⟩)
    store := .ok
    cacheGetFileAfterStore := (.ok, "/cache/persistent/file1") }

/-- Pipeline responses for a cache miss whose download is cancelled
while the cache record is pinned. -/
def pipeEnvCancelPinned : PipelineEnv :=
  { basePipelineEnv with
    cacheGetFile := (.notFound, "")
    download := (.gdataCancelled, "/cache/tmp/downloads/tmp1")
    cacheEntryLookup := (true, ⟨false, false, true⟩) }

/-- Pipeline responses for a cache miss whose download succeeds but
whose cache store fails. -/
def pipeEnvStoreFail : PipelineEnv :=
  { basePipelineEnv with
    cacheGetFile := (.notFound, "")
    store := .noSpace }

/-- OpenFile collaborator responses for a fully successful open. -/
def openEnvSuccess : OpenFileEnv :=
  { entryLookup := (.ok, some sampleFileEntry)
    pipeline := basePipelineEnv
    markDirty := .ok
    cacheGetFile := (.ok, "/cache/persistent/file1") }

/-- OpenFile collaborator responses whose entry lookup fails. -/
def openEnvLookupFail : OpenFileEnv :=
  { openEnvSuccess with entryLookup := (.notFound, none) }

/-- CloseFile collaborator responses for a successful close. -/
def closeEnvSuccess : CloseFileEnv :=
  { entryLookup := (.ok, some sampleFileEntry)
    commitDirty := .ok }

/-- Local-modification responses: dirty cache record, retrievable cache
file, successful file-info probe. -/
def localModEnvDirty : LocalModificationEnv :=
  { cacheEntry := (true, ⟨true, true, false⟩)
    cacheFile := (.ok, "/cache/persistent/file1")
    fileInfo :=
      (true,
        { size := 99, is_directory := false, last_modified := 777
          last_accessed := 778, creation_time := 10 }) }

/-! ## Theorems -/

/-- C1, counterexample.  The claim says a create-file request on an
existing directory with exclusive = false fails with InvalidOperation.
On a concrete directory entry the pre-check instead answers Exists, and
the two error kinds differ. -/
theorem createFile_directory_nonexclusive_counterexample :
    onGetEntryInfoForCreateFile false .ok (some sampleDirEntry) =
      .callbackRun .fileExists ∧
    CreateFileOutcome.callbackRun DriveFileError.fileExists ≠
      CreateFileOutcome.callbackRun DriveFileError.invalidOperation := by
  exact ⟨by decide, by decide⟩

/-- C1, amended.  For a create-file request on a path where an entry
already exists: if the entry is a regular file and exclusive = false,
the operation succeeds without contacting RemoteStore; if the entry is a
directory or a hosted document, the operation fails with Exists
regardless of the exclusive flag. -/
theorem createFile_precheck (is_exclusive : Bool) (e : DriveEntryProto) :
    (e.file_info.is_directory = false →
      e.fsi.is_hosted_document = false →
      onGetEntryInfoForCreateFile false .ok (some e) = .callbackRun .ok ∧
      (onGetEntryInfoForCreateFile false .ok (some e)).contactsRemoteStore
        = false) ∧
    (e.file_info.is_directory = true ∨ e.fsi.is_hosted_document = true →
      onGetEntryInfoForCreateFile is_exclusive .ok (some e) =
        .callbackRun .fileExists) := by
  constructor
  · intro hdir hhosted
    constructor
    · simp [onGetEntryInfoForCreateFile, hdir, hhosted]
    · simp [onGetEntryInfoForCreateFile, hdir, hhosted,
        CreateFileOutcome.contactsRemoteStore]
  · intro h
    rcases h with h | h <;> simp [onGetEntryInfoForCreateFile, h]

/-- Witness for createFile_precheck at concrete entries: a regular file
opened non-exclusively is a no-op success that does not contact the
RemoteStore, and an exclusive request on a directory answers Exists. -/
theorem createFile_precheck_witness :
    sampleFileEntry.file_info.is_directory = false ∧
    sampleFileEntry.fsi.is_hosted_document = false ∧
    sampleDirEntry.file_info.is_directory = true ∧
    (onGetEntryInfoForCreateFile false .ok (some sampleFileEntry) =
        .callbackRun .ok ∧
      (onGetEntryInfoForCreateFile false .ok
          (some sampleFileEntry)).contactsRemoteStore = false) ∧
    onGetEntryInfoForCreateFile true .ok (some sampleDirEntry) =
      .callbackRun .fileExists :=
  ⟨by decide, by decide, by decide,
    (createFile_precheck false sampleFileEntry).1 (by decide) (by decide),
    (createFile_precheck true sampleDirEntry).2 (Or.inl (by decide))⟩

/-- C8, counterexample.  The claim says flipping the push-notification
flag while the polling timer is running reschedules the running timer to
the new interval.  Starting polling in the initial state (fast interval)
and then enabling push notifications selects the slow interval, yet the
running timer keeps the fast interval. -/
theorem polling_flag_flip_counterexample :
    (startPolling initialPollingState).timer_running = true ∧
    (setPushNotificationEnabled (startPolling initialPollingState)
        true).polling_interval_sec = kSlowPollingIntervalInSec ∧
    (setPushNotificationEnabled (startPolling initialPollingState)
        true).timer_interval_sec = kFastPollingIntervalInSec ∧
    kFastPollingIntervalInSec ≠ kSlowPollingIntervalInSec := by
  exact ⟨rfl, rfl, rfl, by decide⟩

/-- C8, amended.  The scheduler selects the short polling interval
whenever the push-notification flag is disabled and the long interval
whenever it is enabled, but flipping the flag does not touch the running
timer: the timer keeps its old interval and running state, and the new
interval takes effect only when polling is next started. -/
theorem polling_interval_selection (st : PollingState) (enabled : Bool) :
    (setPushNotificationEnabled st enabled).polling_interval_sec =
      (if enabled then kSlowPollingIntervalInSec
        else kFastPollingIntervalInSec) ∧
    (setPushNotificationEnabled st enabled).push_notification_enabled =
      enabled ∧
    (setPushNotificationEnabled st enabled).timer_interval_sec =
      st.timer_interval_sec ∧
    (setPushNotificationEnabled st enabled).timer_running =
      st.timer_running ∧
    (startPolling (setPushNotificationEnabled st enabled)).timer_interval_sec
      = (if enabled then kSlowPollingIntervalInSec
          else kFastPollingIntervalInSec) := by
  refine ⟨rfl, rfl, rfl, rfl, rfl⟩

/-- C4.  For every hosted-document entry, the get-file pipeline stages a
stub file whose contents embed the entry id and edit url, returns it
with mime type fixed to application/json and kind HostedDocument
regardless of the entry content mime type, and never invokes the
dirty/pin operations of the ContentCache. -/
theorem getFile_hostedDocument (entry : DriveEntryProto)
    (env : PipelineEnv) (path p : String)
    (hfsi : entry.has_file_specific_info = true)
    (hhd : entry.fsi.is_hosted_document = true)
    (hstage : env.createDocJson = (.ok, p)) :
    getResolvedFileByPath entry env path =
      ⟨.ok, p, kMimeTypeJson, .hostedDocument,
        [Effect.stageDocumentJson env.tmpDocumentsDir
          (createDocumentJsonContent entry.fsi.alternate_url
            entry.resource_id)]⟩ ∧
    (∀ eff ∈ (getResolvedFileByPath entry env path).effects,
      eff.isDirtyOrPinOp = false) ∧
    (∃ s t, createDocumentJsonContent entry.fsi.alternate_url
      entry.resource_id = s ++ entry.resource_id ++ t) ∧
    (∃ s t, createDocumentJsonContent entry.fsi.alternate_url
      entry.resource_id = s ++ entry.fsi.alternate_url ++ t) := by
  have h1 : getResolvedFileByPath entry env path =
      ⟨.ok, p, kMimeTypeJson, .hostedDocument,
        [Effect.stageDocumentJson env.tmpDocumentsDir
          (createDocumentJsonContent entry.fsi.alternate_url
            entry.resource_id)]⟩ := by
    simp [getResolvedFileByPath, hfsi, hhd, hstage]
  refine ⟨h1, ?_, ?_, ?_⟩
  · rw [h1]
    intro eff heff
    simp only [List.mem_singleton] at heff
    subst heff
    rfl
  · exact ⟨"\x7b\"url\": \"" ++ entry.fsi.alternate_url ++
      "\", \"resource_id\": \"", "\"\x7d", rfl⟩
  · refine ⟨"\x7b\"url\": \"",
      "\", \"resource_id\": \"" ++ entry.resource_id ++ "\"\x7d", ?_⟩
    simp only [createDocumentJsonContent, String.append_assoc]

/-- Witness for getFile_hostedDocument at the sample hosted document:
the pipeline returns the staged stub with the fixed JSON mime type and
HostedDocument kind. -/
theorem getFile_hostedDocument_witness :
    sampleHostedEntry.has_file_specific_info = true ∧
    sampleHostedEntry.fsi.is_hosted_document = true ∧
    basePipelineEnv.createDocJson = (.ok, "/cache/tmp/documents/stub.json") ∧
    getResolvedFileByPath sampleHostedEntry basePipelineEnv
        "/drive/root/doc.gdoc" =
      ⟨.ok, "/cache/tmp/documents/stub.json", kMimeTypeJson,
        .hostedDocument,
        [Effect.stageDocumentJson basePipelineEnv.tmpDocumentsDir
          (createDocumentJsonContent sampleHostedEntry.fsi.alternate_url
            sampleHostedEntry.resource_id)]⟩ :=
  ⟨by decide, by decide, rfl,
    (getFile_hostedDocument sampleHostedEntry basePipelineEnv
      "/drive/root/doc.gdoc" "/cache/tmp/documents/stub.json"
      (by decide) (by decide) rfl).1⟩

/-- C5.  For every get-file request on a non-hosted entry whose content
is found in the ContentCache, the pipeline returns the cached local path
with the entry mime type and kind RegularFile, and the only collaborator
call issued is the cache lookup: the RemoteStore is never contacted. -/
theorem getFile_cacheHit (entry : DriveEntryProto) (env : PipelineEnv)
    (path cpath : String)
    (hfsi : entry.has_file_specific_info = true)
    (hhd : entry.fsi.is_hosted_document = false)
    (hhit : env.cacheGetFile = (.ok, cpath)) :
    getResolvedFileByPath entry env path =
      ⟨.ok, cpath, entry.fsi.content_mime_type, .regularFile,
        [Effect.cacheGetFile entry.resource_id entry.fsi.file_md5]⟩ ∧
    ∀ eff ∈ (getResolvedFileByPath entry env path).effects,
      eff.isRemoteStoreCall = false := by
  have h1 : getResolvedFileByPath entry env path =
      ⟨.ok, cpath, entry.fsi.content_mime_type, .regularFile,
        [Effect.cacheGetFile entry.resource_id entry.fsi.file_md5]⟩ := by
    simp [getResolvedFileByPath, hfsi, hhd, hhit]
  refine ⟨h1, ?_⟩
  rw [h1]
  intro eff heff
  simp only [List.mem_singleton] at heff
  subst heff
  rfl

/-- Witness for getFile_cacheHit at the sample regular file: the cached
path is returned and no RemoteStore effect is issued. -/
theorem getFile_cacheHit_witness :
    sampleFileEntry.has_file_specific_info = true ∧
    sampleFileEntry.fsi.is_hosted_document = false ∧
    basePipelineEnv.cacheGetFile = (.ok, "/cache/persistent/file1") ∧
    getResolvedFileByPath sampleFileEntry basePipelineEnv
        "/drive/root/a.txt" =
      ⟨.ok, "/cache/persistent/file1", sampleFileEntry.fsi.content_mime_type,
        .regularFile,
        [Effect.cacheGetFile sampleFileEntry.resource_id
          sampleFileEntry.fsi.file_md5]⟩ :=
  ⟨by decide, by decide, rfl,
    (getFile_cacheHit sampleFileEntry basePipelineEnv "/drive/root/a.txt"
      "/cache/persistent/file1" (by decide) (by decide) rfl).1⟩

/-- C6.  When a download ends with the Cancelled status, the pipeline
issues an unpin call on the cache record of the entry exactly when that
record exists and is pinned, and in either case the pipeline aborts with
the Cancelled error. -/
theorem getFile_cancelUnpin (entry : DriveEntryProto) (env : PipelineEnv)
    (path : String) (rentry : ResourceEntry) (fresh : DriveEntryProto)
    (hfsi : entry.has_file_specific_info = true)
    (hhd : entry.fsi.is_hosted_document = false)
    (hmiss : env.cacheGetFile.1 ≠ .ok)
    (hre : env.resourceEntry = (.httpSuccess, some rentry))
    (hurl : rentry.download_url ≠ "")
    (href : env.refreshEntry = (.ok, some fresh))
    (hspace : env.freeDiskSpace = true)
    (htmp : env.createTempFile.1 = true)
    (hdl : env.download.1 = .gdataCancelled) :
    (getResolvedFileByPath entry env path).error = .cancelled ∧
    (Effect.cacheUnpin fresh.resource_id fresh.fsi.file_md5 ∈
        (getResolvedFileByPath entry env path).effects ↔
      env.cacheEntryLookup.1 = true ∧
      env.cacheEntryLookup.2.is_pinned = true) := by
  constructor
  · simp [getResolvedFileByPath, hfsi, hhd, hmiss, hre, hurl, href,
      hspace, htmp, hdl, gdataToDriveFileError]
  · cases hl : env.cacheEntryLookup.1 <;>
      cases hp : env.cacheEntryLookup.2.is_pinned <;>
      simp [getResolvedFileByPath, hfsi, hhd, hmiss, hre, hurl, href,
        hspace, htmp, hdl, hl, hp, gdataToDriveFileError]

/-- Witness for getFile_cancelUnpin at a cancelled download of the
sample file whose cache record is pinned: the pipeline reports Cancelled
and the unpin call is issued. -/
theorem getFile_cancelUnpin_witness :
    sampleFileEntry.has_file_specific_info = true ∧
    pipeEnvCancelPinned.cacheGetFile.1 ≠ .ok ∧
    pipeEnvCancelPinned.download.1 = .gdataCancelled ∧
    ((getResolvedFileByPath sampleFileEntry pipeEnvCancelPinned
        "/drive/root/a.txt").error = .cancelled ∧
      (Effect.cacheUnpin sampleFileEntry.resource_id
          sampleFileEntry.fsi.file_md5 ∈
          (getResolvedFileByPath sampleFileEntry pipeEnvCancelPinned
            "/drive/root/a.txt").effects ↔
        pipeEnvCancelPinned.cacheEntryLookup.1 = true ∧
        pipeEnvCancelPinned.cacheEntryLookup.2.is_pinned = true)) :=
  ⟨by decide, by decide, rfl,
    getFile_cancelUnpin sampleFileEntry pipeEnvCancelPinned
      "/drive/root/a.txt" sampleResourceEntry sampleFileEntry
      (by decide) (by decide) (by decide) rfl (by decide) rfl rfl
      (by decide) rfl⟩

/-- C7.  When the download succeeds but the subsequent cache store
fails, the pipeline deletes the downloaded temporary file and resolves
with the error of the store, so no success is reported. -/
theorem getFile_storeFailure (entry : DriveEntryProto) (env : PipelineEnv)
    (path : String) (rentry : ResourceEntry) (fresh : DriveEntryProto)
    (dpath : String)
    (hfsi : entry.has_file_specific_info = true)
    (hhd : entry.fsi.is_hosted_document = false)
    (hmiss : env.cacheGetFile.1 ≠ .ok)
    (hre : env.resourceEntry = (.httpSuccess, some rentry))
    (hurl : rentry.download_url ≠ "")
    (href : env.refreshEntry = (.ok, some fresh))
    (hspace : env.freeDiskSpace = true)
    (htmp : env.createTempFile.1 = true)
    (hdl : env.download = (.httpSuccess, dpath))
    (hstore : env.store ≠ .ok) :
    (getResolvedFileByPath entry env path).error = env.store ∧
    (getResolvedFileByPath entry env path).error ≠ .ok ∧
    Effect.deleteFile dpath ∈
      (getResolvedFileByPath entry env path).effects := by
  refine ⟨?_, ?_, ?_⟩ <;>
    simp [getResolvedFileByPath, hfsi, hhd, hmiss, hre, hurl, href,
      hspace, htmp, hdl, hstore, gdataToDriveFileError]

/-- Witness for getFile_storeFailure: the sample download succeeds, the
store answers NoSpace, the temporary file is deleted and NoSpace is the
reported error. -/
theorem getFile_storeFailure_witness :
    pipeEnvStoreFail.store = .noSpace ∧
    pipeEnvStoreFail.store ≠ .ok ∧
    ((getResolvedFileByPath sampleFileEntry pipeEnvStoreFail
        "/drive/root/a.txt").error = pipeEnvStoreFail.store ∧
      (getResolvedFileByPath sampleFileEntry pipeEnvStoreFail
        "/drive/root/a.txt").error ≠ .ok ∧
      Effect.deleteFile "/cache/tmp/downloads/tmp1" ∈
        (getResolvedFileByPath sampleFileEntry pipeEnvStoreFail
          "/drive/root/a.txt").effects) :=
  ⟨rfl, by decide,
    getFile_storeFailure sampleFileEntry pipeEnvStoreFail
      "/drive/root/a.txt" sampleResourceEntry sampleFileEntry
      "/cache/tmp/downloads/tmp1" (by decide) (by decide) (by decide)
      rfl (by decide) rfl rfl (by decide) rfl (by decide)⟩

/-- C2.  A path already in the open-file set is rejected with InUse and
no collaborator is contacted (the file-materialization pipeline is not
started and the set is unchanged); on a path not in the set the call
proceeds, and on success the cache record of the entry is marked dirty
and the path is recorded as open. -/
theorem openFile_exclusivity (open_files : Finset String) (path p : String)
    (env : OpenFileEnv) (e : DriveEntryProto) :
    (path ∈ open_files →
      openFile open_files path env = ⟨open_files, .inUse, "", []⟩) ∧
    (path ∉ open_files →
      env.entryLookup = (.ok, some e) →
      e.has_file_specific_info = true →
      e.fsi.file_md5 ≠ "" →
      e.fsi.is_hosted_document = false →
      (getResolvedFileByPath e env.pipeline path).error = .ok →
      env.markDirty = .ok →
      env.cacheGetFile = (.ok, p) →
      (openFile open_files path env).error = .ok ∧
      (openFile open_files path env).localPath = p ∧
      path ∈ (openFile open_files path env).open_files ∧
      Effect.cacheMarkDirty e.resource_id e.fsi.file_md5 ∈
        (openFile open_files path env).effects) := by
  constructor
  · intro h
    simp [openFile, h]
  · intro hmem hlook hfsi hmd5 hhd hr hmark hget
    refine ⟨?_, ?_, ?_, ?_⟩ <;>
      simp [openFile, hmem, openFileOutcome, openFileError, hlook, hfsi,
        hmd5, hhd, hr, hmark, hget, finishOpen]

/-- Witness for openFile_exclusivity: opening a path already in the set
answers InUse with no effects, and opening a fresh path with the sample
responses succeeds, marks the cache record dirty and records the path as
open. -/
theorem openFile_exclusivity_witness :
    ("/drive/root/a.txt" ∈ ({"/drive/root/a.txt"} : Finset String)) ∧
    openFile {"/drive/root/a.txt"} "/drive/root/a.txt" openEnvSuccess =
      ⟨{"/drive/root/a.txt"}, .inUse, "", []⟩ ∧
    ("/drive/root/b.txt" ∉ (∅ : Finset String)) ∧
    ((openFile ∅ "/drive/root/b.txt" openEnvSuccess).error = .ok ∧
      (openFile ∅ "/drive/root/b.txt" openEnvSuccess).localPath =
        "/cache/persistent/file1" ∧
      "/drive/root/b.txt" ∈
        (openFile ∅ "/drive/root/b.txt" openEnvSuccess).open_files ∧
      Effect.cacheMarkDirty sampleFileEntry.resource_id
          sampleFileEntry.fsi.file_md5 ∈
        (openFile ∅ "/drive/root/b.txt" openEnvSuccess).effects) :=
  ⟨by decide,
    (openFile_exclusivity {"/drive/root/a.txt"} "/drive/root/a.txt"
      "/cache/persistent/file1" openEnvSuccess sampleFileEntry).1
      (by decide),
    by decide,
    (openFile_exclusivity ∅ "/drive/root/b.txt" "/cache/persistent/file1"
      openEnvSuccess sampleFileEntry).2 (by decide) rfl (by decide)
      (by decide) (by decide) (by decide) rfl rfl⟩

/-- C3.  Closing a path that is not in the open-file set answers
NotFound with no commit and no state change; closing an open path
removes the path from the set by the time the callback runs, whatever
the entry lookup and the commit of the dirty cache record answered. -/
theorem closeFile_spec (open_files : Finset String) (path : String)
    (env : CloseFileEnv) :
    (path ∉ open_files →
      closeFile open_files path env = ⟨open_files, .notFound, []⟩) ∧
    (path ∈ open_files →
      (closeFile open_files path env).open_files = open_files.erase path ∧
      path ∉ (closeFile open_files path env).open_files) := by
  constructor
  · intro h
    simp [closeFile, h]
  · intro h
    have h2 : ¬ path ∉ open_files := not_not_intro h
    have hof : (closeFile open_files path env).open_files =
        open_files.erase path := by
      simp only [closeFile, if_neg h2]
      split
      · rfl
      · split <;> rfl
    refine ⟨hof, ?_⟩
    rw [hof]
    exact Finset.not_mem_erase path open_files

/-- Witness for closeFile_spec: closing a never-opened path answers
NotFound without touching the set, and closing the open sample path
empties the set. -/
theorem closeFile_spec_witness :
    ("/drive/root/x.txt" ∉ ({"/drive/root/a.txt"} : Finset String)) ∧
    closeFile {"/drive/root/a.txt"} "/drive/root/x.txt" closeEnvSuccess =
      ⟨{"/drive/root/a.txt"}, .notFound, []⟩ ∧
    ("/drive/root/a.txt" ∈ ({"/drive/root/a.txt"} : Finset String)) ∧
    ((closeFile {"/drive/root/a.txt"} "/drive/root/a.txt"
        closeEnvSuccess).open_files =
      ({"/drive/root/a.txt"} : Finset String).erase "/drive/root/a.txt" ∧
      "/drive/root/a.txt" ∉
        (closeFile {"/drive/root/a.txt"} "/drive/root/a.txt"
          closeEnvSuccess).open_files) :=
  ⟨by decide,
    (closeFile_spec {"/drive/root/a.txt"} "/drive/root/x.txt"
      closeEnvSuccess).1 (by decide),
    by decide,
    (closeFile_spec {"/drive/root/a.txt"} "/drive/root/a.txt"
      closeEnvSuccess).2 (by decide)⟩

/-- C9.  An entry-info lookup that resolves a non-hosted file whose
cache record exists and is dirty, and whose cache file can be retrieved
and probed, gets its file_info replaced by the probed info of the local
cache file; entries that are hosted documents, have no file-specific
info, or whose cache record is absent or not dirty are returned
unchanged. -/
theorem entryInfo_localModification (entry : DriveEntryProto)
    (env : LocalModificationEnv) (ce : DriveCacheEntry)
    (fi : PlatformFileInfoProto) :
    (entry.has_file_specific_info = true →
      entry.fsi.is_hosted_document = false →
      env.cacheEntry = (true, ce) →
      ce.is_dirty = true →
      env.cacheFile.1 = .ok →
      env.fileInfo = (true, fi) →
      checkLocalModificationAndRun entry env =
        (.ok, some { entry with file_info := fi })) ∧
    (entry.has_file_specific_info = false ∨
      entry.fsi.is_hosted_document = true ∨
      env.cacheEntry.1 = false ∨
      env.cacheEntry.2.is_dirty = false →
      checkLocalModificationAndRun entry env = (.ok, some entry)) := by
  constructor
  · intro h1 h2 h3 h4 h5 h6
    simp [checkLocalModificationAndRun, h1, h2, h3, h4, h5, h6]
  · intro h
    rcases h with h | h | h | h <;>
      simp [checkLocalModificationAndRun, h]

/-- Witness for entryInfo_localModification: on the sample dirty cache
record the returned entry carries the size and timestamps probed from
the local cache file. -/
theorem entryInfo_localModification_witness :
    sampleFileEntry.has_file_specific_info = true ∧
    localModEnvDirty.cacheEntry =
      (true, (⟨true, true, false⟩ : DriveCacheEntry)) ∧
    checkLocalModificationAndRun sampleFileEntry localModEnvDirty =
      (.ok, some { sampleFileEntry with file_info :=
        { size := 99, is_directory := false, last_modified := 777
          last_accessed := 778, creation_time := 10 } }) :=
  ⟨by decide, rfl,
    (entryInfo_localModification sampleFileEntry localModEnvDirty
      ⟨true, true, false⟩
      { size := 99, is_directory := false, last_modified := 777
        last_accessed := 778, creation_time := 10 }).1
      (by decide) (by decide) rfl (by decide) (by decide) rfl⟩

/-- C10.  An openFile call on a path not in the open-file set that
completes with any error removes the path again before the callback
runs: the open-file set is unchanged by the failed call and the path is
not in the set afterwards, so a subsequent openFile on it is not
rejected with InUse. -/
theorem openFile_failure_restores (open_files : Finset String)
    (path : String) (env : OpenFileEnv)
    (hmem : path ∉ open_files)
    (herr : (openFile open_files path env).error ≠ .ok) :
    (openFile open_files path env).open_files = open_files ∧
    path ∉ (openFile open_files path env).open_files := by
  have hopen : openFile open_files path env =
      finishOpen (insert path open_files) path
        (openFileOutcome path env).1 (openFileOutcome path env).2.1
        (openFileOutcome path env).2.2 := by
    simp [openFile, hmem]
  have hres : (openFileOutcome path env).1 ≠ .ok := by
    intro hc
    apply herr
    rw [hopen]
    simp [finishOpen, hc]
  have hof : (openFile open_files path env).open_files = open_files := by
    rw [hopen]
    simp [finishOpen, hres, Finset.erase_insert hmem]
  refine ⟨hof, ?_⟩
  rw [hof]
  exact hmem

/-- Witness for openFile_failure_restores: a failed open (entry lookup
answers NotFound) on a fresh path leaves the open-file set empty. -/
theorem openFile_failure_restores_witness :
    ("/drive/root/c.txt" ∉ (∅ : Finset String)) ∧
    (openFile ∅ "/drive/root/c.txt" openEnvLookupFail).error ≠ .ok ∧
    ((openFile ∅ "/drive/root/c.txt" openEnvLookupFail).open_files = ∅ ∧
      "/drive/root/c.txt" ∉
        (openFile ∅ "/drive/root/c.txt" openEnvLookupFail).open_files) :=
  ⟨by decide, by decide,
    openFile_failure_restores ∅ "/drive/root/c.txt" openEnvLookupFail
      (by decide) (by decide)⟩

end Drive
